import Mathlib

/-!
Verification of the week6 agent orchestration engine
(`src/week6-agent-implementation/human_in_loop.py` and
`src/week6-agent-implementation/agent.py`).

Modelling conventions:
* LangChain messages are the inductive `Msg`; a message that is not an
  `AIMessage` has no `tool_calls` attribute, which `Msg.toolCalls` renders
  as the empty list (matching the `hasattr`/emptiness checks in the source).
* Python dict updates returned by graph nodes are applied directly:
  `messages` and `audit_log` are `operator.add`-annotated, so node returns
  append to them; the other fields are replaced when present in the
  returned dict and kept otherwise.
* An uncaught Python exception is modelled by `Except.error`; a node that
  cannot raise is a total function.
* Timestamps (`datetime.now().isoformat()`) come from an external clock and
  carry no information used by any routing decision; they are omitted from
  the model.  Temporal order of audit entries is their list order, which is
  exactly how the append-only log records it.
* Tool argument dicts are the inductive `ToolArgs`; LangChain validates the
  arguments against the tool schema inside `.invoke`, raising on mismatch,
  which the model renders as `Except.error` for an argument value that does
  not fit the invoked tool.
-/

namespace Week6

/-- Shapes of tool-argument dicts for the tools of both agent files.
`new_price` is a float in the source; no arithmetic is ever done on it, so
the model carries its rendered text. -/
inductive ToolArgsKind where
  | search (query : String)
  | email (recipient subject body : String)
  | deleteIds (record_ids : List String)
  | pricing (product_id new_price : String)
  | calcExpr (expression : String)
  | noArgs
  deriving DecidableEq, Repr

/-- A tool call as produced by the LLM: dict with name, args and id. -/
structure ToolCall where
  name : String
  args : ToolArgsKind
  id : String
  deriving DecidableEq, Repr

end Week6

namespace Week6

/-- LangChain message, restricted to the constructors the engine builds or
inspects. `toolMsg` carries the optional `name` field (passed in `agent.py`,
omitted in `human_in_loop.py`). -/
inductive Msg where
  | human (content : String)
  | ai (content : String) (tool_calls : List ToolCall)
  | toolMsg (content : String) (tool_call_id : String) (name : Option String)
  deriving DecidableEq, Repr

/-- The `tool_calls` attribute: only `AIMessage` has one; the source guards
with `hasattr(last_message, "tool_calls") or not last_message.tool_calls`,
so non-AI messages behave as an empty list. -/
def Msg.toolCalls : Msg → List ToolCall
  | .ai _ tcs => tcs
  | _ => []

/-- `messages[-1]`.  Reachable states always have a non-empty message list
(the caller seeds one `HumanMessage` and nodes only append); Python would
raise `IndexError` on an empty list, a case no run reaches. -/
def lastMsg (msgs : List Msg) : Msg :=
  msgs.getLastD (Msg.human "")

/-- The LLM reply for one turn: content plus requested tool calls.  The
LLM itself (`llm_with_tools.invoke`) is the external Reasoner; runs are
parametrised over it. -/
structure AIMsg where
  content : String
  tool_calls : List ToolCall
  deriving DecidableEq, Repr

/-- Python repr of a list of strings, as interpolated by
`f"... {record_ids}"` in `delete_records`. -/
def pyStrListRepr (xs : List String) : String :=
  "[" ++ String.intercalate ", " (xs.map (fun s => "\x27" ++ s ++ "\x27")) ++ "]"

/-- Python `str.strip()` (drop leading and trailing whitespace), modelled
structurally over the character list. -/
def pyStrip (s : String) : String :=
  ⟨((s.data.dropWhile Char.isWhitespace).reverse.dropWhile
      Char.isWhitespace).reverse⟩

/-- Python `str.lower()`, modelled characterwise (the engine only compares
the result against the ASCII literals `yes` and `modify`). -/
def pyLower (s : String) : String :=
  ⟨s.data.map Char.toLower⟩

end Week6

namespace HIL

open Week6

/-- `search_database` tool body (`human_in_loop.py` lines 32-39); an
argument dict not matching the schema makes `.invoke` raise. -/
def search_database : ToolArgsKind → Except String String
  | .search query =>
      .ok ("Database search results for \x27" ++ query ++
        "\x27: Found 3 relevant entries.")
  | _ => .error "ValidationError: search_database"

/-- `send_email` tool body (lines 41-54). -/
def send_email : ToolArgsKind → Except String String
  | .email recipient subject _body =>
      .ok ("Email prepared for " ++ recipient ++ " with subject \x27" ++
        subject ++ "\x27")
  | _ => .error "ValidationError: send_email"

/-- `delete_records` tool body (lines 56-67). -/
def delete_records : ToolArgsKind → Except String String
  | .deleteIds record_ids =>
      .ok ("Prepared to delete " ++ toString record_ids.length ++
        " records: " ++ pyStrListRepr record_ids)
  | _ => .error "ValidationError: delete_records"

/-- `modify_pricing` tool body (lines 69-80). -/
def modify_pricing : ToolArgsKind → Except String String
  | .pricing product_id new_price =>
      .ok ("Prepared to change price for " ++ product_id ++ " to $" ++
        new_price)
  | _ => .error "ValidationError: modify_pricing"

/-- `TOOL_RISK_LEVELS` (lines 86-91). -/
def TOOL_RISK_LEVELS : List (String × String) :=
  [("search_database", "low"),
   ("send_email", "medium"),
   ("delete_records", "high"),
   ("modify_pricing", "high")]

/-- `get_risk_level` (lines 98-100): `TOOL_RISK_LEVELS.get(tool_name, "high")`. -/
def get_risk_level (tool_name : String) : String :=
  (TOOL_RISK_LEVELS.lookup tool_name).getD "high"

/-- `requires_approval` (lines 93-96). -/
def requires_approval (tool_name : String) : Bool :=
  let risk := (TOOL_RISK_LEVELS.lookup tool_name).getD "high"
  ["medium", "high"].contains risk

/-- `pending_action` dict (timestamp field omitted, see module header). -/
structure PendingAction where
  tool_name : String
  tool_args : ToolArgsKind
  tool_call_id : String
  risk_level : String
  deriving DecidableEq, Repr

/-- Audit-log entries, one constructor per dict literal the source appends
(timestamps omitted).  `event` recovers the `"event"` field. -/
inductive AuditEntry where
  | approval_requested (tool : String) (risk : String) (args : ToolArgsKind)
  | approval_granted (tool : String)
  | approval_denied (tool : String) (reason : String)
  | action_executed (tool : String) (result : String)
  | auto_executed (tool : String) (risk : String)
  deriving DecidableEq, Repr

/-- The `"event"` field of an audit entry; stated as a `String` so that
event kinds the code never emits (`decision_made`, `action_rejected`,
`error`) remain expressible. -/
def AuditEntry.event : AuditEntry → String
  | .approval_requested _ _ _ => "approval_requested"
  | .approval_granted _ => "approval_granted"
  | .approval_denied _ _ => "approval_denied"
  | .action_executed _ _ => "action_executed"
  | .auto_executed _ _ => "auto_executed"

/-- Number of audit entries with a given event kind. -/
def countEvent (log : List AuditEntry) (e : String) : Nat :=
  (log.filter (fun a => a.event == e)).length

/-- `AgentState` of `human_in_loop.py` (lines 106-113). -/
structure AgentState where
  messages : List Msg
  pending_action : Option PendingAction
  approval_granted : Bool
  approval_message : String
  iteration_count : Nat
  audit_log : List AuditEntry
  deriving DecidableEq, Repr

/-- `agent_node` (lines 119-137): appends the Reasoner reply, increments
the iteration counter. -/
def agent_node (reasoner : List Msg → AIMsg) (s : AgentState) : AgentState :=
  let response := reasoner s.messages
  { s with
    messages := s.messages ++ [Msg.ai response.content response.tool_calls],
    iteration_count := s.iteration_count + 1 }

/-- `check_approval_needed` (lines 139-182). -/
def check_approval_needed (s : AgentState) : AgentState :=
  match (lastMsg s.messages).toolCalls with
  | [] => { s with pending_action := none }
  | tool_call :: _ =>
      let tool_name := tool_call.name
      if requires_approval tool_name then
        let risk_level := get_risk_level tool_name
        let pending : PendingAction :=
          { tool_name := tool_name,
            tool_args := tool_call.args,
            tool_call_id := tool_call.id,
            risk_level := risk_level }
        let audit_entry :=
          AuditEntry.approval_requested tool_name risk_level tool_call.args
        { s with
          pending_action := some pending,
          audit_log := s.audit_log ++ [audit_entry] }
      else
        { s with pending_action := none }

/-- `request_human_approval` (lines 184-241); `approval_input` is the
external operator reply read by `input(...)`.  Subscripting a `None`
pending action raises, as in Python. -/
def request_human_approval (approval_input : String) (s : AgentState) :
    Except String AgentState :=
  match s.pending_action with
  | none => .error "TypeError: pending_action is None"
  | some pending =>
      let a := pyLower (pyStrip approval_input)
      if a == "yes" then
        .ok { s with
          approval_granted := true,
          approval_message := "Approved by human operator",
          audit_log := s.audit_log ++
            [AuditEntry.approval_granted pending.tool_name] }
      else if a == "modify" then
        .ok { s with
          approval_granted := false,
          approval_message := "Action rejected - modification requested",
          pending_action := none }
      else
        .ok { s with
          approval_granted := false,
          approval_message := "Action rejected by human operator",
          pending_action := none,
          audit_log := s.audit_log ++
            [AuditEntry.approval_denied pending.tool_name
              "Human operator rejected"] }

/-- The `tool_map` dispatch of `execute_approved_action` (lines 252-257):
a name outside the dict raises `KeyError`. -/
def tool_map (tool_name : String) : Option (ToolArgsKind → Except String String) :=
  if tool_name == "search_database" then some search_database
  else if tool_name == "send_email" then some send_email
  else if tool_name == "delete_records" then some delete_records
  else if tool_name == "modify_pricing" then some modify_pricing
  else none

/-- `execute_approved_action` (lines 243-283).  There is no try/except in
the source: a `KeyError` on an unknown tool name, or an exception raised
by `.invoke`, propagates. -/
def execute_approved_action (s : AgentState) : Except String AgentState :=
  match s.pending_action with
  | none => .error "TypeError: pending_action is None"
  | some pending =>
      match tool_map pending.tool_name with
      | none => .error ("KeyError: " ++ pending.tool_name)
      | some tool_func =>
          match tool_func pending.tool_args with
          | .error e => .error e
          | .ok result =>
              .ok { s with
                messages := s.messages ++
                  [Msg.toolMsg result pending.tool_call_id none],
                pending_action := none,
                approval_granted := false,
                audit_log := s.audit_log ++
                  [AuditEntry.action_executed pending.tool_name result] }

/-- `handle_rejection` (lines 285-301). -/
def handle_rejection (s : AgentState) : AgentState :=
  let approval_msg := s.approval_message
  let rejection_message := Msg.human
    ("The requested action was not approved. " ++ approval_msg ++
      ". Please suggest an alternative approach.")
  { s with
    messages := s.messages ++ [rejection_message],
    pending_action := none,
    approval_granted := false }

/-- `auto_execute_low_risk` (lines 303-338): only the first tool call is
examined, and only the hardcoded name `search_database` is dispatched;
anything else returns the empty update.  `.invoke` raising propagates
(no try/except in the source). -/
def auto_execute_low_risk (s : AgentState) : Except String AgentState :=
  match (lastMsg s.messages).toolCalls with
  | [] => .ok s
  | tool_call :: _ =>
      let tool_name := tool_call.name
      if tool_name == "search_database" then
        match search_database tool_call.args with
        | .error e => .error e
        | .ok result =>
            .ok { s with
              messages := s.messages ++
                [Msg.toolMsg result tool_call.id none],
              audit_log := s.audit_log ++
                [AuditEntry.auto_executed tool_name "low"] }
      else
        .ok s

/-- `should_continue` (lines 344-359); the iteration bound is hardcoded
to 10. -/
def should_continue (s : AgentState) : String :=
  if s.iteration_count ≥ 10 then "end"
  else if (lastMsg s.messages).toolCalls == [] then "end"
  else "check_approval"

/-- `route_approval` (lines 361-379). -/
def route_approval (s : AgentState) : String :=
  if s.pending_action.isSome then "request_approval"
  else if (lastMsg s.messages).toolCalls ≠ [] then "auto_execute"
  else "agent"

/-- `route_after_approval` (lines 381-387). -/
def route_after_approval (s : AgentState) : String :=
  if s.approval_granted then "execute" else "reject"

/-- Graph nodes of `create_human_in_loop_agent` (lines 393-446), plus the
terminal `END`. -/
inductive Node where
  | agent
  | check_approval
  | request_approval
  | execute
  | reject
  | auto_execute
  | END
  deriving DecidableEq, Repr

/-- A point of the run: engine state, the node about to execute, and the
number of operator replies consumed so far (the gate reads the next reply
from the external input stream). -/
structure Cfg where
  state : AgentState
  node : Node
  cursor : Nat
  deriving DecidableEq, Repr

/-- One LangGraph superstep of the compiled graph: execute the node the
configuration points at, then route on the merged state exactly as the
conditional edges of `create_human_in_loop_agent` do.  `reasoner` is the
external LLM, `inputs` the stream of operator replies.  `Except.error`
is an uncaught Python exception aborting `invoke`. -/
def stepNode (reasoner : List Msg → AIMsg) (inputs : Nat → String)
    (c : Cfg) : Except String Cfg :=
  match c.node with
  | .agent =>
      let s := agent_node reasoner c.state
      if should_continue s == "end" then .ok ⟨s, .END, c.cursor⟩
      else .ok ⟨s, .check_approval, c.cursor⟩
  | .check_approval =>
      let s := check_approval_needed c.state
      if route_approval s == "request_approval" then
        .ok ⟨s, .request_approval, c.cursor⟩
      else if route_approval s == "auto_execute" then
        .ok ⟨s, .auto_execute, c.cursor⟩
      else .ok ⟨s, .agent, c.cursor⟩
  | .request_approval =>
      match request_human_approval (inputs c.cursor) c.state with
      | .error e => .error e
      | .ok s =>
          if route_after_approval s == "execute" then
            .ok ⟨s, .execute, c.cursor + 1⟩
          else .ok ⟨s, .reject, c.cursor + 1⟩
  | .execute =>
      match execute_approved_action c.state with
      | .error e => .error e
      | .ok s => .ok ⟨s, .agent, c.cursor⟩
  | .reject => .ok ⟨handle_rejection c.state, .agent, c.cursor⟩
  | .auto_execute =>
      match auto_execute_low_risk c.state with
      | .error e => .error e
      | .ok s => .ok ⟨s, .agent, c.cursor⟩
  | .END => .ok c

/-- Iterate `stepNode` until the terminal node (or the fuel runs out,
which ample fuel prevents on the concrete runs below: every cycle of the
graph passes through `agent`, whose counter the bound 10 stops). -/
def runHIL (reasoner : List Msg → AIMsg) (inputs : Nat → String) :
    Nat → Cfg → Except String Cfg
  | 0, c => .ok c
  | fuel + 1, c =>
      if c.node == Node.END then .ok c
      else
        match stepNode reasoner inputs c with
        | .error e => .error e
        | .ok c2 => runHIL reasoner inputs fuel c2

/-- Initial configuration, mirroring the `agent.invoke({...})` calls of
the usage examples (lines 462-471 etc.): one seed `HumanMessage`, zeroed
counters, empty audit log, entry point `agent`. -/
def initHIL (query : String) : Cfg :=
  { state :=
      { messages := [Msg.human query],
        pending_action := none,
        approval_granted := false,
        approval_message := "",
        iteration_count := 0,
        audit_log := [] },
    node := .agent,
    cursor := 0 }

/-- Configurations reachable from the initial one by supersteps that do
not raise. -/
inductive ReachableHIL (reasoner : List Msg → AIMsg) (inputs : Nat → String)
    (query : String) : Cfg → Prop where
  | init : ReachableHIL reasoner inputs query (initHIL query)
  | step {c c2 : Cfg} : ReachableHIL reasoner inputs query c →
      stepNode reasoner inputs c = .ok c2 →
      ReachableHIL reasoner inputs query c2

end HIL

namespace WSAgent

open Week6

/-!
Model of `src/week6-agent-implementation/agent.py` (the web-search and
calculator agent).  `pyEval` is the Python `eval` builtin restricted by
the character filter of `calculator` (an external primitive of the
language, passed as an oracle: `.error` is `eval` raising, which
`calculator` catches itself); `now` is the formatted wall-clock string of
`get_current_time`.  `search_web` is modelled in the default
configuration `SERP_API_KEY = ""` (no key in the environment), where the
source returns the mock results without touching the network.
-/

/-- `calculator` tool body (`agent.py` lines 33-57); its internal
try/except means a well-shaped argument never raises. -/
def calculator (pyEval : String → Except String String) :
    ToolArgsKind → Except String String
  | .calcExpr expression =>
      let allowed_chars := "0123456789+-*/() ."
      if expression.all (fun c => allowed_chars.contains c) then
        match pyEval expression with
        | .ok result => .ok result
        | .error e => .ok ("Error calculating expression: " ++ e)
      else
        .ok "Error: Expression contains invalid characters"
  | _ => .error "ValidationError: calculator"

/-- `search_web` tool body (lines 60-100), keyless configuration; its
try/except wraps the whole body. -/
def search_web : ToolArgsKind → Except String String
  | .search query =>
      .ok ("Mock search results for \x27" ++ query ++ "\x27:\n\n1. " ++
        query ++ " - Latest information and developments\n2. " ++ query ++
        " - Comprehensive guide and best practices\n3. " ++ query ++
        " - Expert insights and analysis")
  | _ => .error "ValidationError: search_web"

/-- `get_current_time` tool body (lines 103-111). -/
def get_current_time (now : String) : ToolArgsKind → Except String String
  | .noArgs => .ok now
  | _ => .error "ValidationError: get_current_time"

/-- `AgentState` of `agent.py` (lines 115-118). -/
structure AgentState where
  messages : List Msg
  iterations : Nat
  max_iterations : Nat
  deriving DecidableEq, Repr

/-- `agent_node` (lines 137-166): appends the Reasoner reply and
increments `iterations`. -/
def agent_node (reasoner : List Msg → AIMsg) (s : AgentState) : AgentState :=
  let response := reasoner s.messages
  { s with
    messages := s.messages ++ [Msg.ai response.content response.tool_calls],
    iterations := s.iterations + 1 }

/-- The `tool_map` of `tool_node` (lines 188-192). -/
def tool_map (pyEval : String → Except String String) (now : String)
    (tool_name : String) : Option (ToolArgsKind → Except String String) :=
  if tool_name == "calculator" then some (calculator pyEval)
  else if tool_name == "search_web" then some search_web
  else if tool_name == "get_current_time" then some (get_current_time now)
  else none

/-- One turn of the for-loop body of `tool_node` (lines 179-225): known
tool with try/except around `.invoke`, unknown tool answered with an
error `ToolMessage` — never an uncaught exception. -/
def dispatch_call (pyEval : String → Except String String) (now : String)
    (tool_call : ToolCall) : Msg :=
  match tool_map pyEval now tool_call.name with
  | some tool_func =>
      match tool_func tool_call.args with
      | .ok result => Msg.toolMsg result tool_call.id (some tool_call.name)
      | .error e =>
          Msg.toolMsg ("Error executing " ++ tool_call.name ++ ": " ++ e)
            tool_call.id (some tool_call.name)
  | none =>
      Msg.toolMsg ("Unknown tool: " ++ tool_call.name) tool_call.id
        (some tool_call.name)

/-- The accumulation of `tool_results` over the for-loop of `tool_node`. -/
def collect_results (pyEval : String → Except String String) (now : String) :
    List ToolCall → List Msg
  | [] => []
  | tool_call :: rest =>
      dispatch_call pyEval now tool_call :: collect_results pyEval now rest

/-- `tool_node` (lines 169-227): executes every tool call of the last
message, in order, appending one `ToolMessage` per call. -/
def tool_node (pyEval : String → Except String String) (now : String)
    (s : AgentState) : AgentState :=
  let tool_results :=
    collect_results pyEval now (lastMsg s.messages).toolCalls
  { s with messages := s.messages ++ tool_results }

/-- `should_continue` (lines 230-248). -/
def should_continue (s : AgentState) : String :=
  if s.iterations ≥ s.max_iterations then "end"
  else if (lastMsg s.messages).toolCalls ≠ [] then "continue"
  else "end"

/-- Graph nodes of `create_agent_executor` (lines 250-276). -/
inductive Node where
  | agent
  | tools
  | END
  deriving DecidableEq, Repr

/-- A point of the run. -/
structure Cfg where
  state : AgentState
  node : Node
  deriving DecidableEq, Repr

/-- One LangGraph superstep of the compiled `agent.py` graph: `agent` is
routed by `should_continue`; `tools` returns to `agent` unconditionally.
Every node of this graph is total. -/
def stepA (reasoner : List Msg → AIMsg)
    (pyEval : String → Except String String) (now : String) (c : Cfg) : Cfg :=
  match c.node with
  | .agent =>
      let s := agent_node reasoner c.state
      if should_continue s == "end" then ⟨s, .END⟩ else ⟨s, .tools⟩
  | .tools => ⟨tool_node pyEval now c.state, .agent⟩
  | .END => c

/-- Initial configuration of `run_agent` (lines 279-305): one seed
`HumanMessage`, `iterations = 0`, caller-chosen `max_iterations`. -/
def initA (query : String) (max_iterations : Nat) : Cfg :=
  { state :=
      { messages := [Msg.human query],
        iterations := 0,
        max_iterations := max_iterations },
    node := .agent }

/-- Configurations reachable from the initial one. -/
inductive ReachableA (reasoner : List Msg → AIMsg)
    (pyEval : String → Except String String) (now : String)
    (query : String) (max_iterations : Nat) : Cfg → Prop where
  | init : ReachableA reasoner pyEval now query max_iterations
      (initA query max_iterations)
  | step {c : Cfg} : ReachableA reasoner pyEval now query max_iterations c →
      ReachableA reasoner pyEval now query max_iterations
        (stepA reasoner pyEval now c)

end WSAgent


namespace Week6

/-- The `tool_call_id`s already answered by a `ToolMessage` in a message
list. -/
def answeredIds (msgs : List Msg) : List String :=
  msgs.filterMap fun m =>
    match m with
    | .toolMsg _ id _ => some id
    | _ => none

end Week6

namespace HIL

open Week6

/-- Audit log of a finished run (empty if the run aborted on an uncaught
exception, in which case `invoke` returns no state at all). -/
def finalAudit (r : Except String Cfg) : List AuditEntry :=
  match r with
  | .ok c => c.state.audit_log
  | .error _ => []

/-- Message history of a finished run. -/
def finalMessages (r : Except String Cfg) : List Msg :=
  match r with
  | .ok c => c.state.messages
  | .error _ => []

/-- The no-silent-escalation audit predicate: an `approval_requested`
entry never names a tool whose registered risk is `low`, and an
`auto_executed` entry only ever names a `low`-risk tool. -/
def auditOk (log : List AuditEntry) : Bool :=
  log.all fun e =>
    match e with
    | .approval_requested tool _ _ => !(get_risk_level tool == "low")
    | .auto_executed tool _ => get_risk_level tool == "low"
    | _ => true

/-- Reasoner of spec Scenario B/C: first turn requests
`delete_records({record_ids: [R1, R2]})`, any later turn answers with a
final message. -/
def sbReasoner : List Msg → AIMsg := fun ms =>
  if ms.length == 1 then
    { content := "",
      tool_calls := [{ name := "delete_records",
                       args := .deleteIds ["R1", "R2"],
                       id := "call_1" }] }
  else { content := "Task complete.", tool_calls := [] }

/-- Scenario B: the high-risk request with the operator approving. -/
def scenarioBRun : Except String Cfg :=
  runHIL sbReasoner (fun _ => "yes") 20 (initHIL "Delete records R1 and R2")

/-- Scenario C: the same request with the operator rejecting. -/
def scenarioCRun : Except String Cfg :=
  runHIL sbReasoner (fun _ => "no") 20 (initHIL "Delete records R1 and R2")

/-- A Reasoner whose first Decision carries two tool calls at once. -/
def multiReasoner : List Msg → AIMsg := fun ms =>
  if ms.length == 1 then
    { content := "",
      tool_calls := [{ name := "search_database", args := .search "q1", id := "c1" },
                     { name := "search_database", args := .search "q2", id := "c2" }] }
  else { content := "Done.", tool_calls := [] }

/-- Run of the two-call Decision. -/
def multiRun : Except String Cfg :=
  runHIL multiReasoner (fun _ => "yes") 20 (initHIL "two searches")

/-- A Reasoner requesting a tool with arguments that do not fit its
schema, so the handler invocation raises. -/
def badArgsReasoner : List Msg → AIMsg := fun ms =>
  if ms.length == 1 then
    { content := "",
      tool_calls := [{ name := "delete_records", args := .search "oops", id := "c1" }] }
  else { content := "Done.", tool_calls := [] }

/-- Run of the ill-typed high-risk request, approved by the operator. -/
def badArgsRun : Except String Cfg :=
  runHIL badArgsReasoner (fun _ => "yes") 20 (initHIL "bad args")

/-- The synthetic message `handle_rejection` appends. -/
def rejectionMessage (approval_msg : String) : Msg :=
  Msg.human ("The requested action was not approved. " ++ approval_msg ++
    ". Please suggest an alternative approach.")

/-- State after `request_human_approval` resolves a rejection (the
`else` branch of the operator reply). -/
def rejGateState (s : AgentState) (p : PendingAction) : AgentState :=
  { s with
    approval_granted := false,
    approval_message := "Action rejected by human operator",
    pending_action := none,
    audit_log := s.audit_log ++
      [AuditEntry.approval_denied p.tool_name "Human operator rejected"] }

/-- State after `handle_rejection` follows the rejection. -/
def rejFinalState (s : AgentState) (p : PendingAction) : AgentState :=
  { rejGateState s p with
    messages := s.messages ++
      [rejectionMessage "Action rejected by human operator"] }

/-- State after `check_approval_needed` parks a medium/high-risk head
call `tc` as the pending action. -/
def apprState1 (s : AgentState) (tc : ToolCall) : AgentState :=
  { s with
    pending_action := some
      { tool_name := tc.name, tool_args := tc.args, tool_call_id := tc.id,
        risk_level := get_risk_level tc.name },
    audit_log := s.audit_log ++
      [AuditEntry.approval_requested tc.name (get_risk_level tc.name) tc.args] }

/-- State after the operator approves the pending action. -/
def apprState2 (s : AgentState) (tc : ToolCall) : AgentState :=
  { apprState1 s tc with
    approval_granted := true,
    approval_message := "Approved by human operator",
    audit_log := (apprState1 s tc).audit_log ++
      [AuditEntry.approval_granted tc.name] }

/-- State after `execute_approved_action` runs the approved tool with
result `r`. -/
def apprState3 (s : AgentState) (tc : ToolCall) (r : String) : AgentState :=
  { apprState2 s tc with
    messages := s.messages ++ [Msg.toolMsg r tc.id none],
    pending_action := none,
    approval_granted := false,
    audit_log := (apprState2 s tc).audit_log ++
      [AuditEntry.action_executed tc.name r] }

/-- A state paused at the gate on a medium-risk pending e-mail, used to
probe the `modify` resolution. -/
def modifyProbeState : AgentState :=
  { messages :=
      [Msg.human "mail john",
       Msg.ai "" [{ name := "send_email",
                    args := .email "john@example.com" "Report" "Q3 numbers",
                    id := "c1" }]],
    pending_action := some
      { tool_name := "send_email",
        tool_args := .email "john@example.com" "Report" "Q3 numbers",
        tool_call_id := "c1",
        risk_level := "medium" },
    approval_granted := false,
    approval_message := "",
    iteration_count := 1,
    audit_log := [AuditEntry.approval_requested "send_email" "medium"
      (.email "john@example.com" "Report" "Q3 numbers")] }

/-- The gate state after the operator answers `modify`. -/
def modifyResolvedState : AgentState :=
  { modifyProbeState with
    approval_granted := false,
    approval_message := "Action rejected - modification requested",
    pending_action := none }

/-- A state at `auto_execute` whose head call names `search_database`
but carries an argument dict that fails the tool schema. -/
def badSearchState : AgentState :=
  { messages :=
      [Msg.human "q",
       Msg.ai "" [{ name := "search_database", args := .noArgs, id := "c1" }]],
    pending_action := none,
    approval_granted := false,
    approval_message := "",
    iteration_count := 1,
    audit_log := [] }

/-- An approved pending action naming a tool outside `tool_map`. -/
def fooPendingState : AgentState :=
  { messages :=
      [Msg.human "use foo",
       Msg.ai "" [{ name := "foo_tool", args := .noArgs, id := "c1" }]],
    pending_action := some
      { tool_name := "foo_tool", tool_args := .noArgs,
        tool_call_id := "c1", risk_level := "high" },
    approval_granted := true,
    approval_message := "Approved by human operator",
    iteration_count := 1,
    audit_log :=
      [AuditEntry.approval_requested "foo_tool" "high" .noArgs,
       AuditEntry.approval_granted "foo_tool"] }

end HIL

namespace WSAgent

open Week6

/-- A Reasoner that always requests one calculator call (used to drive
the bound counterexample). -/
def calcReasoner : List Msg → AIMsg := fun _ =>
  { content := "",
    tool_calls := [{ name := "calculator", args := .calcExpr "2+2", id := "c" }] }

/-- A stand-in for the Python `eval` oracle that evaluates everything to
`4`. -/
def pyEval4 : String → Except String String := fun _ => .ok "4"

/-- The configuration one superstep into `run_agent(query, max_iterations=0)`. -/
def zeroBoundCfg : Cfg :=
  stepA calcReasoner pyEval4 "now" (initA "q" 0)

end WSAgent

namespace HIL

open Week6

/-- The Scenario B tool call. -/
def sbCall : ToolCall :=
  { name := "delete_records", args := .deleteIds ["R1", "R2"], id := "call_1" }

/-- The state of the Scenario B run after the first Reasoner turn, about
to enter `check_approval`. -/
def sbTurn1State : AgentState :=
  { messages := [Msg.human "Delete records R1 and R2", Msg.ai "" [sbCall]],
    pending_action := none,
    approval_granted := false,
    approval_message := "",
    iteration_count := 1,
    audit_log := [] }

/-- The `delete_records` output for the Scenario B arguments. -/
def sbResult : String :=
  "Prepared to delete 2 records: " ++ pyStrListRepr ["R1", "R2"]

/-- A state about to enter `auto_execute` whose Decision carries two
well-formed `search_database` calls. -/
def autoOkState : AgentState :=
  { messages :=
      [Msg.human "two searches",
       Msg.ai "" [{ name := "search_database", args := .search "q1", id := "c1" },
                  { name := "search_database", args := .search "q2", id := "c2" }]],
    pending_action := none,
    approval_granted := false,
    approval_message := "",
    iteration_count := 1,
    audit_log := [] }

/-- The `search_database` output for the query `q1`. -/
def q1Result : String :=
  "Database search results for \x27q1\x27: Found 3 relevant entries."

/-- An approved pending `delete_records` action whose argument dict does
not fit the tool schema, so `.invoke` raises. -/
def badArgsPendingState : AgentState :=
  { messages :=
      [Msg.human "bad args",
       Msg.ai "" [{ name := "delete_records", args := .search "oops", id := "c1" }]],
    pending_action := some
      { tool_name := "delete_records", tool_args := .search "oops",
        tool_call_id := "c1", risk_level := "high" },
    approval_granted := true,
    approval_message := "Approved by human operator",
    iteration_count := 1,
    audit_log :=
      [AuditEntry.approval_requested "delete_records" "high" (.search "oops"),
       AuditEntry.approval_granted "delete_records"] }

end HIL

namespace WSAgent

open Week6

/-- An `agent.py` state whose last message carries two calculator calls. -/
def wsTwoCallState : AgentState :=
  { messages :=
      [Msg.human "q",
       Msg.ai "" [{ name := "calculator", args := .calcExpr "2+2", id := "w1" },
                  { name := "calculator", args := .calcExpr "3+3", id := "w2" }]],
    iterations := 1,
    max_iterations := 5 }

end WSAgent

namespace WSAgent

open Week6

/-- C2 counterexample: with `run_agent(query, max_iterations=0)` the entry
point `agent` still runs once, so one superstep reaches a state with
`iterations = 1 > 0 = max_iterations`, and the Reasoner was invoked (a
second message was appended) although the bound was already reached at the
start. -/
theorem C2_counterexample :
    ReachableA calcReasoner pyEval4 "now" "q" 0 zeroBoundCfg ∧
    zeroBoundCfg.state.iterations = 1 ∧
    zeroBoundCfg.state.max_iterations = 0 ∧
    ¬ zeroBoundCfg.state.iterations ≤ zeroBoundCfg.state.max_iterations ∧
    zeroBoundCfg.state.messages.length = 2 :=
  ⟨ReachableA.step ReachableA.init, by decide, by decide, by decide, by decide⟩

/-- C2 (amended: for `max_iterations ≥ 1`): every configuration reachable
in a run of `agent.py` keeps `iterations ≤ max_iterations`, keeps
`max_iterations` itself unchanged, and whenever the run is not terminated
(so the `agent` node, i.e. the Reasoner, may still execute) the bound has
strictly not been reached; hitting the bound routes to `END` — a normal
termination, every node of this graph being a total function. -/
theorem C2_iteration_bound (reasoner : List Msg → AIMsg)
    (pyEval : String → Except String String) (now : String)
    (query : String) (m : Nat) (hm : 1 ≤ m) :
    ∀ c, ReachableA reasoner pyEval now query m c →
      c.state.iterations ≤ m ∧ c.state.max_iterations = m ∧
      (c.node ≠ Node.END → c.state.iterations < m) := by
  intro c h
  induction h with
  | init =>
      refine ⟨Nat.zero_le m, rfl, fun _ => hm⟩
  | @step c h ih =>
      obtain ⟨hle, hmax, hlt⟩ := ih
      cases hn : c.node with
      | agent =>
          have hlt' := hlt (by simp [hn])
          simp only [stepA, hn]
          by_cases hend : should_continue (agent_node reasoner c.state) == "end"
          · simp only [hend, if_true]
            refine ⟨?_, ?_, ?_⟩
            · simpa [agent_node] using hlt'
            · simpa [agent_node] using hmax
            · intro hne; simp at hne
          · simp only [hend, if_false]
            have hcont : ¬ (agent_node reasoner c.state).iterations ≥
                (agent_node reasoner c.state).max_iterations := by
              intro hge
              apply hend
              simp [should_continue, hge]
            simp only [agent_node] at hcont ⊢
            have hmax' : c.state.max_iterations = m := hmax
            rw [hmax'] at hcont
            push_neg at hcont
            exact ⟨Nat.le_of_lt hcont, hmax', fun _ => hcont⟩
      | tools =>
          have hlt' := hlt (by simp [hn])
          simp only [stepA, hn]
          refine ⟨Nat.le_of_lt hlt', hmax, fun _ => hlt'⟩
      | END =>
          simp only [stepA, hn]
          exact ⟨hle, hmax, fun hne => absurd rfl hne⟩

/-- C2 witness: the amended bound theorem applied at the initial
configuration of a run with `max_iterations = 1`. -/
theorem C2_iteration_bound_witness :
    (initA "q" 1).state.iterations ≤ 1 ∧
    (initA "q" 1).state.max_iterations = 1 ∧
    ((initA "q" 1).node ≠ Node.END → (initA "q" 1).state.iterations < 1) :=
  C2_iteration_bound calcReasoner pyEval4 "now" "q" 1 (by decide)
    (initA "q" 1) ReachableA.init

end WSAgent


namespace HIL

open Week6

/-- A tool that `requires_approval` never has registered risk `low`. -/
theorem requires_approval_not_low (t : String)
    (h : requires_approval t = true) :
    (get_risk_level t == "low") = false := by
  unfold requires_approval at h
  unfold get_risk_level
  simp only [List.contains_cons, List.contains_nil, Bool.or_false,
    Bool.or_eq_true] at h
  rcases h with hm | hh
  · rw [eq_of_beq hm]; rfl
  · rw [eq_of_beq hh]; rfl

/-- `check_approval_needed` preserves the audit predicate. -/
theorem auditOk_check_approval (s : AgentState)
    (h : auditOk s.audit_log = true) :
    auditOk (check_approval_needed s).audit_log = true := by
  rcases hlast : (lastMsg s.messages).toolCalls with _ | ⟨tc, rest⟩
  · unfold check_approval_needed
    rw [hlast]
    exact h
  · unfold check_approval_needed
    rw [hlast]
    dsimp only
    by_cases hreq : requires_approval tc.name = true
    · rw [if_pos hreq]
      unfold auditOk at h ⊢
      simp only [List.all_append, List.all_cons, List.all_nil, h,
        Bool.true_and, Bool.and_true]
      rw [requires_approval_not_low tc.name hreq]
      rfl
    · rw [if_neg hreq]
      exact h

/-- `request_human_approval` preserves the audit predicate. -/
theorem auditOk_request_human (inp : String) (s s2 : AgentState)
    (h : request_human_approval inp s = .ok s2)
    (hok : auditOk s.audit_log = true) : auditOk s2.audit_log = true := by
  unfold request_human_approval at h
  split at h
  · exact absurd h (by simp)
  · dsimp only at h
    split at h
    · cases h
      unfold auditOk at hok ⊢
      simp [List.all_append, hok]
    · split at h
      · cases h; exact hok
      · cases h
        unfold auditOk at hok ⊢
        simp [List.all_append, hok]

/-- `execute_approved_action` preserves the audit predicate. -/
theorem auditOk_execute_approved (s s2 : AgentState)
    (h : execute_approved_action s = .ok s2)
    (hok : auditOk s.audit_log = true) : auditOk s2.audit_log = true := by
  unfold execute_approved_action at h
  split at h
  · exact absurd h (by simp)
  · split at h
    · exact absurd h (by simp)
    · split at h
      · exact absurd h (by simp)
      · cases h
        unfold auditOk at hok ⊢
        simp [List.all_append, hok]

/-- `auto_execute_low_risk` preserves the audit predicate: the only entry
it can append names `search_database`, whose registered risk is `low`. -/
theorem auditOk_auto_execute (s s2 : AgentState)
    (h : auto_execute_low_risk s = .ok s2)
    (hok : auditOk s.audit_log = true) : auditOk s2.audit_log = true := by
  unfold auto_execute_low_risk at h
  split at h
  · cases h; exact hok
  · rename_i tc rest
    dsimp only at h
    split at h
    · rename_i hname
      split at h
      · exact absurd h (by simp)
      · cases h
        unfold auditOk at hok ⊢
        simp only [List.all_append, List.all_cons, List.all_nil, hok,
          Bool.true_and, Bool.and_true]
        rw [eq_of_beq hname]
        rfl
    · cases h; exact hok

/-- C3: in every reachable state of a `human_in_loop.py` run, no
`approval_requested` entry names a tool of registered risk `low`, and
every `auto_executed` entry names a tool of registered risk `low` — so a
low-risk tool never triggers an approval request, and a medium/high-risk
or unregistered tool is never auto-executed. -/
theorem C3_no_silent_escalation (reasoner : List Msg → AIMsg)
    (inputs : Nat → String) (query : String) :
    ∀ c, ReachableHIL reasoner inputs query c →
      auditOk c.state.audit_log = true := by
  intro c h
  induction h with
  | init => rfl
  | @step c c2 h hstep ih =>
      rcases c with ⟨s, node, k⟩
      cases node with
      | agent =>
          simp only [stepNode] at hstep
          split at hstep <;> cases hstep <;> exact ih
      | check_approval =>
          simp only [stepNode] at hstep
          split at hstep
          · cases hstep; exact auditOk_check_approval s ih
          · split at hstep <;> cases hstep <;>
              exact auditOk_check_approval s ih
      | request_approval =>
          simp only [stepNode] at hstep
          split at hstep
          · exact absurd hstep (by simp)
          · rename_i s2 hr
            split at hstep <;> cases hstep <;>
              exact auditOk_request_human (inputs k) s s2 hr ih
      | execute =>
          simp only [stepNode] at hstep
          split at hstep
          · exact absurd hstep (by simp)
          · rename_i s2 hr
            cases hstep
            exact auditOk_execute_approved s s2 hr ih
      | reject =>
          simp only [stepNode] at hstep
          cases hstep
          exact ih
      | auto_execute =>
          simp only [stepNode] at hstep
          split at hstep
          · exact absurd hstep (by simp)
          · rename_i s2 hr
            cases hstep
            exact auditOk_auto_execute s s2 hr ih
      | END =>
          cases hstep
          exact ih

/-- C3 witness: the invariant instantiated at the initial configuration
of a run. -/
theorem C3_no_silent_escalation_witness :
    auditOk (initHIL "Search the database for customer records").state.audit_log = true :=
  C3_no_silent_escalation sbReasoner (fun _ => "yes")
    "Search the database for customer records" _ ReachableHIL.init

end HIL

namespace HIL

open Week6

/-- C4: a Decision whose head tool call names a tool absent from
`TOOL_RISK_LEVELS` is treated as `high` risk by the lookup, forced into
the approval path by `check_approval_needed` (a pending action is
created and an `approval_requested` entry appended), and routed to
`request_approval` — never to `auto_execute`, never dropped. -/
theorem C4_unknown_tool_fail_safe (name : String) (args : ToolArgsKind)
    (cid : String) (rest : List ToolCall) (s : AgentState)
    (hname : TOOL_RISK_LEVELS.lookup name = none)
    (hlast : (lastMsg s.messages).toolCalls =
      { name := name, args := args, id := cid } :: rest) :
    get_risk_level name = "high" ∧
    requires_approval name = true ∧
    (check_approval_needed s).pending_action =
      some { tool_name := name, tool_args := args, tool_call_id := cid,
             risk_level := "high" } ∧
    (check_approval_needed s).audit_log =
      s.audit_log ++ [AuditEntry.approval_requested name "high" args] ∧
    route_approval (check_approval_needed s) = "request_approval" := by
  have hrisk : get_risk_level name = "high" := by
    unfold get_risk_level
    rw [hname]
    rfl
  have hreq : requires_approval name = true := by
    unfold requires_approval
    rw [hname]
    rfl
  have hc : check_approval_needed s =
      { s with
        pending_action := some
          { tool_name := name, tool_args := args,
            tool_call_id := cid, risk_level := get_risk_level name },
        audit_log := s.audit_log ++
          [AuditEntry.approval_requested name (get_risk_level name) args] } := by
    unfold check_approval_needed
    rw [hlast]
    dsimp only
    rw [if_pos hreq]
  refine ⟨hrisk, hreq, ?_, ?_, ?_⟩
  · rw [hc]
    dsimp only
    rw [hrisk]
  · rw [hc]
    dsimp only
    rw [hrisk]
  · unfold route_approval
    rw [hc]
    rfl

/-- C4 witness: the fail-safe applied to a concrete Decision naming the
unregistered tool `unknown_tool`. -/
theorem C4_unknown_tool_fail_safe_witness :
    get_risk_level "unknown_tool" = "high" ∧
    requires_approval "unknown_tool" = true ∧
    (check_approval_needed
      { messages := [Msg.human "go",
          Msg.ai "" [{ name := "unknown_tool", args := .noArgs, id := "c1" }]],
        pending_action := none, approval_granted := false,
        approval_message := "", iteration_count := 1,
        audit_log := [] }).pending_action =
      some { tool_name := "unknown_tool", tool_args := .noArgs,
             tool_call_id := "c1", risk_level := "high" } ∧
    (check_approval_needed
      { messages := [Msg.human "go",
          Msg.ai "" [{ name := "unknown_tool", args := .noArgs, id := "c1" }]],
        pending_action := none, approval_granted := false,
        approval_message := "", iteration_count := 1,
        audit_log := [] }).audit_log =
      [] ++ [AuditEntry.approval_requested "unknown_tool" "high" .noArgs] ∧
    route_approval (check_approval_needed
      { messages := [Msg.human "go",
          Msg.ai "" [{ name := "unknown_tool", args := .noArgs, id := "c1" }]],
        pending_action := none, approval_granted := false,
        approval_message := "", iteration_count := 1,
        audit_log := [] }) = "request_approval" :=
  C4_unknown_tool_fail_safe "unknown_tool" .noArgs "c1" [] _ rfl rfl

/-- C10: a pending action naming a tool outside `tool_map`, once
approved, makes `execute_approved_action` raise `KeyError`, which no
handler catches: the superstep aborts with the exception, so no
`ToolResult` message and no audit entry of any kind is produced. -/
theorem C10_unknown_tool_keyerror (s : AgentState) (p : PendingAction)
    (reasoner : List Msg → AIMsg) (inputs : Nat → String) (k : Nat)
    (hp : s.pending_action = some p)
    (hname : p.tool_name ∉
      ["search_database", "send_email", "delete_records", "modify_pricing"]) :
    execute_approved_action s = .error ("KeyError: " ++ p.tool_name) ∧
    stepNode reasoner inputs ⟨s, .execute, k⟩ =
      .error ("KeyError: " ++ p.tool_name) := by
  simp only [List.mem_cons, List.not_mem_nil, or_false, not_or] at hname
  obtain ⟨h1, h2, h3, h4⟩ := hname
  have hmap : tool_map p.tool_name = none := by
    simp [tool_map, h1, h2, h3, h4]
  have hx : execute_approved_action s =
      .error ("KeyError: " ++ p.tool_name) := by
    unfold execute_approved_action
    rw [hp]
    dsimp only
    rw [hmap]
  refine ⟨hx, ?_⟩
  simp only [stepNode]
  rw [hx]

/-- C10 witness: the approved `foo_tool` pending action crashes the
executing node with a `KeyError`. -/
theorem C10_unknown_tool_keyerror_witness :
    execute_approved_action fooPendingState =
      .error ("KeyError: " ++ "foo_tool") ∧
    stepNode sbReasoner (fun _ => "yes") ⟨fooPendingState, .execute, 0⟩ =
      .error ("KeyError: " ++ "foo_tool") :=
  C10_unknown_tool_keyerror fooPendingState
    { tool_name := "foo_tool", tool_args := .noArgs,
      tool_call_id := "c1", risk_level := "high" }
    sbReasoner (fun _ => "yes") 0 rfl (by decide)

end HIL

namespace HIL

open Week6

/-- No audit entry the engine can construct carries the event kind `e`
when every constructor's kind differs from `e`. -/
theorem countEvent_zero_of_never (log : List AuditEntry) (e : String)
    (h : ∀ a : AuditEntry, (AuditEntry.event a == e) = false) :
    countEvent log e = 0 := by
  unfold countEvent
  have : log.filter (fun a => AuditEntry.event a == e) = [] := by
    rw [List.filter_eq_nil_iff]
    intro a _
    simp [h a]
  rw [this]
  rfl

/-- No constructor of `AuditEntry` carries the kind `decision_made`. -/
theorem event_ne_decision_made (a : AuditEntry) :
    (AuditEntry.event a == "decision_made") = false := by
  cases a <;> rfl

/-- C1 counterexample: the Scenario B run (high-risk `delete_records`
approved and executed) finishes with no `decision_made` entry at all —
the engine has no code path that emits one — although the claim demands
exactly one. -/
theorem C1_counterexample :
    countEvent (finalAudit scenarioBRun) "approval_requested" = 1 ∧
    countEvent (finalAudit scenarioBRun) "approval_granted" = 1 ∧
    countEvent (finalAudit scenarioBRun) "action_executed" = 1 ∧
    countEvent (finalAudit scenarioBRun) "decision_made" = 0 :=
  ⟨rfl, rfl, rfl, rfl⟩

/-- C1 (amended: no `decision_made` entry exists): whenever the engine
reaches `check_approval` with a medium/high-risk head call and the
operator answers `yes`, the next three supersteps append exactly one
`approval_requested`, one `approval_granted` and one `action_executed`
entry, in that order, and append the confirming `ToolResult` message;
`decision_made` is an event kind the engine never emits. -/
theorem C1_approved_flow (reasoner : List Msg → AIMsg) (inputs : Nat → String)
    (k : Nat) (s : AgentState) (tc : ToolCall) (rest : List ToolCall)
    (f : ToolArgsKind → Except String String) (r : String)
    (hlast : (lastMsg s.messages).toolCalls = tc :: rest)
    (hrisk : requires_approval tc.name = true)
    (hf : tool_map tc.name = some f)
    (hr : f tc.args = .ok r)
    (hyes : (pyLower (pyStrip (inputs k)) == "yes") = true) :
    stepNode reasoner inputs ⟨s, .check_approval, k⟩ =
      .ok ⟨apprState1 s tc, .request_approval, k⟩ ∧
    stepNode reasoner inputs ⟨apprState1 s tc, .request_approval, k⟩ =
      .ok ⟨apprState2 s tc, .execute, k + 1⟩ ∧
    stepNode reasoner inputs ⟨apprState2 s tc, .execute, k + 1⟩ =
      .ok ⟨apprState3 s tc r, .agent, k + 1⟩ ∧
    (apprState3 s tc r).audit_log = s.audit_log ++
      [AuditEntry.approval_requested tc.name (get_risk_level tc.name) tc.args,
       AuditEntry.approval_granted tc.name,
       AuditEntry.action_executed tc.name r] ∧
    (apprState3 s tc r).messages = s.messages ++ [Msg.toolMsg r tc.id none] ∧
    countEvent (apprState3 s tc r).audit_log "decision_made" = 0 := by
  have hc : check_approval_needed s = apprState1 s tc := by
    unfold check_approval_needed apprState1
    rw [hlast]
    dsimp only
    rw [if_pos hrisk]
  have hg : request_human_approval (inputs k) (apprState1 s tc) =
      .ok (apprState2 s tc) := by
    unfold request_human_approval apprState1
    dsimp only
    rw [if_pos hyes]
    rfl
  have hx : execute_approved_action (apprState2 s tc) =
      .ok (apprState3 s tc r) := by
    unfold execute_approved_action apprState2 apprState1
    dsimp only
    rw [hf]
    dsimp only
    rw [hr]
    rfl
  refine ⟨?_, ?_, ?_, ?_, rfl, ?_⟩
  · simp only [stepNode]
    rw [hc]
    rfl
  · simp only [stepNode]
    rw [hg]
    rfl
  · simp only [stepNode]
    rw [hx]
  · simp only [apprState3, apprState2, apprState1, List.append_assoc]
    rfl
  · exact countEvent_zero_of_never _ _ event_ne_decision_made

/-- C1 witness: the approved flow instantiated at the Scenario B
configuration. -/
theorem C1_approved_flow_witness :
    stepNode sbReasoner (fun _ => "yes") ⟨sbTurn1State, .check_approval, 0⟩ =
      .ok ⟨apprState1 sbTurn1State sbCall, .request_approval, 0⟩ ∧
    stepNode sbReasoner (fun _ => "yes")
        ⟨apprState1 sbTurn1State sbCall, .request_approval, 0⟩ =
      .ok ⟨apprState2 sbTurn1State sbCall, .execute, 1⟩ ∧
    stepNode sbReasoner (fun _ => "yes")
        ⟨apprState2 sbTurn1State sbCall, .execute, 1⟩ =
      .ok ⟨apprState3 sbTurn1State sbCall sbResult, .agent, 1⟩ ∧
    (apprState3 sbTurn1State sbCall sbResult).audit_log = [] ++
      [AuditEntry.approval_requested "delete_records" "high"
        (.deleteIds ["R1", "R2"]),
       AuditEntry.approval_granted "delete_records",
       AuditEntry.action_executed "delete_records" sbResult] ∧
    (apprState3 sbTurn1State sbCall sbResult).messages =
      sbTurn1State.messages ++ [Msg.toolMsg sbResult "call_1" none] ∧
    countEvent (apprState3 sbTurn1State sbCall sbResult).audit_log
      "decision_made" = 0 :=
  C1_approved_flow sbReasoner (fun _ => "yes") 0 sbTurn1State sbCall []
    delete_records sbResult rfl rfl rfl rfl rfl

end HIL

namespace HIL

open Week6

/-- No constructor of `AuditEntry` carries the kind `action_rejected`. -/
theorem event_ne_action_rejected (a : AuditEntry) :
    (AuditEntry.event a == "action_rejected") = false := by
  cases a <;> rfl

/-- C5 counterexample: the Scenario C run (high-risk request, operator
rejects) appends the synthetic rejection message and one
`approval_denied` entry, but no `action_rejected` entry exists anywhere —
the engine has no code path that emits that event kind. -/
theorem C5_counterexample :
    countEvent (finalAudit scenarioCRun) "approval_denied" = 1 ∧
    countEvent (finalAudit scenarioCRun) "action_rejected" = 0 ∧
    (finalMessages scenarioCRun).count
      (rejectionMessage "Action rejected by human operator") = 1 ∧
    countEvent (finalAudit scenarioCRun) "action_executed" = 0 :=
  ⟨rfl, rfl, rfl, rfl⟩

/-- C5 (amended: the audit entry of a rejection is the gate's single
`approval_denied` entry, not an `action_rejected` one): resolving a
pending action with any reply other than `yes`/`modify` appends exactly
one `approval_denied` entry and, via `handle_rejection`, exactly one
synthetic Human message; it clears the pending action, sets the approval
message, never invokes the tool handler (no message except the synthetic
one, no `action_executed` entry is added), and leaves the iteration
counter, the earlier messages and the earlier audit entries unchanged. -/
theorem C5_rejection_frame (reasoner : List Msg → AIMsg)
    (inputs : Nat → String) (k : Nat) (s : AgentState) (p : PendingAction)
    (hp : s.pending_action = some p)
    (hyes : (pyLower (pyStrip (inputs k)) == "yes") = false)
    (hmod : (pyLower (pyStrip (inputs k)) == "modify") = false) :
    stepNode reasoner inputs ⟨s, .request_approval, k⟩ =
      .ok ⟨rejGateState s p, .reject, k + 1⟩ ∧
    stepNode reasoner inputs ⟨rejGateState s p, .reject, k + 1⟩ =
      .ok ⟨rejFinalState s p, .agent, k + 1⟩ ∧
    (rejFinalState s p).messages = s.messages ++
      [rejectionMessage "Action rejected by human operator"] ∧
    (rejFinalState s p).audit_log = s.audit_log ++
      [AuditEntry.approval_denied p.tool_name "Human operator rejected"] ∧
    (rejFinalState s p).pending_action = none ∧
    (rejFinalState s p).iteration_count = s.iteration_count ∧
    countEvent (rejFinalState s p).audit_log "action_executed" =
      countEvent s.audit_log "action_executed" ∧
    countEvent (rejFinalState s p).audit_log "action_rejected" = 0 := by
  have hg : request_human_approval (inputs k) s = .ok (rejGateState s p) := by
    unfold request_human_approval
    rw [hp]
    dsimp only
    rw [if_neg (by simp [hyes]), if_neg (by simp [hmod])]
    rfl
  refine ⟨?_, ?_, rfl, rfl, rfl, rfl, ?_, ?_⟩
  · simp only [stepNode]
    rw [hg]
    rfl
  · simp only [stepNode]
    rfl
  · show countEvent (s.audit_log ++
        [AuditEntry.approval_denied p.tool_name "Human operator rejected"])
        "action_executed" = countEvent s.audit_log "action_executed"
    have h0 : ((AuditEntry.approval_denied p.tool_name
        "Human operator rejected").event == "action_executed") = false := rfl
    simp [countEvent, List.filter_append, h0]
  · exact countEvent_zero_of_never _ _ event_ne_action_rejected

/-- C5 witness: the rejection frame instantiated at the Scenario C
configuration (operator reply `no`). -/
theorem C5_rejection_frame_witness :
    stepNode sbReasoner (fun _ => "no") ⟨apprState1 sbTurn1State sbCall, .request_approval, 0⟩ =
      .ok ⟨rejGateState (apprState1 sbTurn1State sbCall) (PendingAction.mk "delete_records" (.deleteIds ["R1", "R2"]) "call_1" "high"), .reject, 1⟩ ∧
    stepNode sbReasoner (fun _ => "no")
        ⟨rejGateState (apprState1 sbTurn1State sbCall)
          (PendingAction.mk "delete_records" (.deleteIds ["R1", "R2"]) "call_1" "high"), .reject, 1⟩ =
      .ok ⟨rejFinalState (apprState1 sbTurn1State sbCall)
          (PendingAction.mk "delete_records" (.deleteIds ["R1", "R2"]) "call_1" "high"), .agent, 1⟩ ∧
    (rejFinalState (apprState1 sbTurn1State sbCall)
        (PendingAction.mk "delete_records" (.deleteIds ["R1", "R2"]) "call_1" "high")).messages =
      (apprState1 sbTurn1State sbCall).messages ++
        [rejectionMessage "Action rejected by human operator"] ∧
    (rejFinalState (apprState1 sbTurn1State sbCall)
        (PendingAction.mk "delete_records" (.deleteIds ["R1", "R2"]) "call_1" "high")).audit_log =
      (apprState1 sbTurn1State sbCall).audit_log ++
        [AuditEntry.approval_denied "delete_records" "Human operator rejected"] ∧
    (rejFinalState (apprState1 sbTurn1State sbCall)
        (PendingAction.mk "delete_records" (.deleteIds ["R1", "R2"]) "call_1" "high")).pending_action = none ∧
    (rejFinalState (apprState1 sbTurn1State sbCall)
        (PendingAction.mk "delete_records" (.deleteIds ["R1", "R2"]) "call_1" "high")).iteration_count =
      (apprState1 sbTurn1State sbCall).iteration_count ∧
    countEvent (rejFinalState (apprState1 sbTurn1State sbCall)
        (PendingAction.mk "delete_records" (.deleteIds ["R1", "R2"]) "call_1" "high")).audit_log
      "action_executed" =
      countEvent (apprState1 sbTurn1State sbCall).audit_log "action_executed" ∧
    countEvent (rejFinalState (apprState1 sbTurn1State sbCall)
        (PendingAction.mk "delete_records" (.deleteIds ["R1", "R2"]) "call_1" "high")).audit_log
      "action_rejected" = 0 :=
  C5_rejection_frame sbReasoner (fun _ => "no") 0
    (apprState1 sbTurn1State sbCall)
    (PendingAction.mk "delete_records" (.deleteIds ["R1", "R2"]) "call_1" "high")
    rfl rfl rfl

end HIL

namespace HIL

open Week6

/-- C8 counterexample: resolving the gate with `modify` returns control
with the audit log untouched — neither an `approval_granted` nor an
`approval_denied` entry is appended, although the claim demands exactly
one of the two for every resolution. -/
theorem C8_counterexample :
    request_human_approval "modify" modifyProbeState =
      .ok modifyResolvedState ∧
    modifyResolvedState.audit_log = modifyProbeState.audit_log ∧
    countEvent modifyResolvedState.audit_log "approval_granted" = 0 ∧
    countEvent modifyResolvedState.audit_log "approval_denied" = 0 ∧
    modifyResolvedState.approval_message =
      "Action rejected - modification requested" :=
  ⟨rfl, rfl, rfl, rfl, rfl⟩

/-- C8 (amended: `modify` is routed like a rejection with a distinct
`approval_message`, but appends no audit entry at all): a `yes` reply
appends exactly one `approval_granted` entry; a `modify` reply changes
only `approval_granted`, `approval_message` and `pending_action`,
leaving the audit log unchanged; any other reply appends exactly one
`approval_denied` entry. -/
theorem C8_gate_resolution (inp : String) (s : AgentState)
    (p : PendingAction) (hp : s.pending_action = some p) :
    ((pyLower (pyStrip inp) == "yes") = true →
      request_human_approval inp s = .ok
        { s with
          approval_granted := true,
          approval_message := "Approved by human operator",
          audit_log := s.audit_log ++
            [AuditEntry.approval_granted p.tool_name] }) ∧
    ((pyLower (pyStrip inp) == "yes") = false →
      (pyLower (pyStrip inp) == "modify") = true →
      request_human_approval inp s = .ok
        { s with
          approval_granted := false,
          approval_message := "Action rejected - modification requested",
          pending_action := none }) ∧
    ((pyLower (pyStrip inp) == "yes") = false →
      (pyLower (pyStrip inp) == "modify") = false →
      request_human_approval inp s = .ok
        { s with
          approval_granted := false,
          approval_message := "Action rejected by human operator",
          pending_action := none,
          audit_log := s.audit_log ++
            [AuditEntry.approval_denied p.tool_name
              "Human operator rejected"] }) := by
  refine ⟨?_, ?_, ?_⟩
  · intro hyes
    unfold request_human_approval
    rw [hp]
    dsimp only
    rw [if_pos hyes]
  · intro hyes hmod
    unfold request_human_approval
    rw [hp]
    dsimp only
    rw [if_neg (by simp [hyes]), if_pos hmod]
  · intro hyes hmod
    unfold request_human_approval
    rw [hp]
    dsimp only
    rw [if_neg (by simp [hyes]), if_neg (by simp [hmod])]

/-- C8 witness: the `yes` branch of the gate resolution at the pending
e-mail probe state. -/
theorem C8_gate_resolution_witness :
    request_human_approval "yes" modifyProbeState = .ok
      { modifyProbeState with
        approval_granted := true,
        approval_message := "Approved by human operator",
        audit_log := modifyProbeState.audit_log ++
          [AuditEntry.approval_granted "send_email"] } :=
  (C8_gate_resolution "yes" modifyProbeState
    (PendingAction.mk "send_email"
      (.email "john@example.com" "Report" "Q3 numbers") "c1" "medium")
    rfl).1 rfl

end HIL

namespace HIL

open Week6

/-- C9 counterexample: a head tool call named exactly `search_database`
whose argument dict fails the tool schema makes `auto_execute_low_risk`
raise instead of appending a `ToolResult` and an `auto_executed` entry,
so the dispatch is not characterised by the name alone. -/
theorem C9_counterexample :
    ((lastMsg badSearchState.messages).toolCalls.head?.map ToolCall.name) =
      some "search_database" ∧
    auto_execute_low_risk badSearchState =
      .error "ValidationError: search_database" :=
  ⟨rfl, rfl⟩

/-- C9 (amended: provided the arguments fit the schema): on a Decision
whose head call is named `search_database` with well-formed arguments,
`auto_execute_low_risk` appends exactly one `ToolResult` message and one
`auto_executed` entry; on any other head name it returns the empty
update — the state is unchanged and the superstep hands control back to
the Reasoner with the call unanswered; on `search_database` with
ill-formed arguments the validation error propagates uncaught. -/
theorem C9_auto_execute_dispatch (reasoner : List Msg → AIMsg)
    (inputs : Nat → String) (k : Nat) (s : AgentState) (tc : ToolCall)
    (rest : List ToolCall)
    (hlast : (lastMsg s.messages).toolCalls = tc :: rest) :
    ((tc.name == "search_database") = false →
      auto_execute_low_risk s = .ok s ∧
      stepNode reasoner inputs ⟨s, .auto_execute, k⟩ =
        .ok ⟨s, .agent, k⟩) ∧
    (∀ r, (tc.name == "search_database") = true →
      search_database tc.args = .ok r →
      auto_execute_low_risk s = .ok
        { s with
          messages := s.messages ++ [Msg.toolMsg r tc.id none],
          audit_log := s.audit_log ++
            [AuditEntry.auto_executed tc.name "low"] }) ∧
    (∀ e, (tc.name == "search_database") = true →
      search_database tc.args = .error e →
      auto_execute_low_risk s = .error e ∧
      stepNode reasoner inputs ⟨s, .auto_execute, k⟩ = .error e) := by
  refine ⟨?_, ?_, ?_⟩
  · intro hname
    have hx : auto_execute_low_risk s = .ok s := by
      unfold auto_execute_low_risk
      rw [hlast]
      dsimp only
      rw [if_neg (by simp [hname])]
    refine ⟨hx, ?_⟩
    simp only [stepNode]
    rw [hx]
  · intro r hname hr
    unfold auto_execute_low_risk
    rw [hlast]
    dsimp only
    rw [if_pos hname, hr]
  · intro e hname hr
    have hx : auto_execute_low_risk s = .error e := by
      unfold auto_execute_low_risk
      rw [hlast]
      dsimp only
      rw [if_pos hname, hr]
    refine ⟨hx, ?_⟩
    simp only [stepNode]
    rw [hx]

/-- C9 witness: the well-formed branch at the two-call search state. -/
theorem C9_auto_execute_dispatch_witness :
    auto_execute_low_risk autoOkState = .ok
      { autoOkState with
        messages := autoOkState.messages ++ [Msg.toolMsg q1Result "c1" none],
        audit_log := autoOkState.audit_log ++
          [AuditEntry.auto_executed "search_database" "low"] } :=
  (C9_auto_execute_dispatch sbReasoner (fun _ => "yes") 0 autoOkState
    { name := "search_database", args := .search "q1", id := "c1" }
    [{ name := "search_database", args := .search "q2", id := "c2" }]
    rfl).2.1 q1Result rfl rfl

end HIL

namespace WSAgent

open Week6

/-- Every turn of the `tool_node` loop produces a `ToolMessage` answering
exactly the call it was given (known tool, erroring tool and unknown tool
alike). -/
theorem dispatch_call_toolMsg (pyEval : String → Except String String)
    (now : String) (tc : ToolCall) :
    ∃ content, dispatch_call pyEval now tc =
      Msg.toolMsg content tc.id (some tc.name) := by
  unfold dispatch_call
  cases tool_map pyEval now tc.name with
  | none => exact ⟨"Unknown tool: " ++ tc.name, rfl⟩
  | some f =>
      dsimp only
      cases f tc.args with
      | ok r => exact ⟨r, rfl⟩
      | error e =>
          exact ⟨"Error executing " ++ tc.name ++ ": " ++ e, rfl⟩

/-- The loop of `tool_node` answers the given calls one-for-one, in
order. -/
theorem answeredIds_collect (pyEval : String → Except String String)
    (now : String) (l : List ToolCall) :
    answeredIds (collect_results pyEval now l) = l.map ToolCall.id := by
  induction l with
  | nil => rfl
  | cons tc rest ih =>
      obtain ⟨content, hc⟩ := dispatch_call_toolMsg pyEval now tc
      unfold collect_results
      rw [hc]
      unfold answeredIds at ih ⊢
      rw [List.filterMap_cons]
      dsimp only
      rw [ih, List.map_cons]

end WSAgent

namespace HIL

open Week6

/-- C6 counterexample: in the approval engine, a Decision carrying two
`search_database` calls gets only its first call answered — the run
finishes with a `ToolResult` for `c1`, none for `c2`, and a single
`auto_executed` entry; the second call is dropped unhandled. -/
theorem C6_counterexample :
    (finalMessages multiRun)[1]? = some (Msg.ai ""
      [{ name := "search_database", args := .search "q1", id := "c1" },
       { name := "search_database", args := .search "q2", id := "c2" }]) ∧
    answeredIds (finalMessages multiRun) = ["c1"] ∧
    countEvent (finalAudit multiRun) "auto_executed" = 1 :=
  ⟨rfl, rfl, rfl⟩

/-- C6 (amended: only `agent.py` processes all calls; the approval engine
handles just the head call of a Decision and drops the rest): `tool_node`
of `agent.py` appends one `ToolResult` per requested call, in the order
the Reasoner returned them; in `human_in_loop.py`,
`check_approval_needed` computes its pending action from the head call
alone, and `auto_execute_low_risk` answers at most the head call —
whatever the remaining calls are, no `ToolResult` for them is ever
appended. -/
theorem C6_per_call_dispatch (pyEval : String → Except String String)
    (now : String) (ws : WSAgent.AgentState)
    (s2 : AgentState) (tc : ToolCall) (rest : List ToolCall)
    (hlast2 : (lastMsg s2.messages).toolCalls = tc :: rest) :
    (WSAgent.tool_node pyEval now ws).messages = ws.messages ++
      WSAgent.collect_results pyEval now (lastMsg ws.messages).toolCalls ∧
    answeredIds (WSAgent.collect_results pyEval now
        (lastMsg ws.messages).toolCalls) =
      ((lastMsg ws.messages).toolCalls).map ToolCall.id ∧
    (check_approval_needed s2).pending_action =
      (if requires_approval tc.name then
        some { tool_name := tc.name, tool_args := tc.args,
               tool_call_id := tc.id, risk_level := get_risk_level tc.name }
       else none) ∧
    (∀ s3, auto_execute_low_risk s2 = .ok s3 →
      answeredIds s3.messages = answeredIds s2.messages ++
        (if tc.name == "search_database" then [tc.id] else [])) := by
  refine ⟨rfl, WSAgent.answeredIds_collect pyEval now _, ?_, ?_⟩
  · unfold check_approval_needed
    rw [hlast2]
    dsimp only
    by_cases hreq : requires_approval tc.name = true
    · rw [if_pos hreq, if_pos hreq]
    · rw [if_neg hreq, if_neg hreq]
  · intro s3 h
    unfold auto_execute_low_risk at h
    rw [hlast2] at h
    dsimp only at h
    by_cases hname : (tc.name == "search_database") = true
    · rw [if_pos hname] at h
      rw [if_pos hname]
      cases hr : search_database tc.args with
      | error e => rw [hr] at h; exact absurd h (by simp)
      | ok r =>
          rw [hr] at h
          cases h
          unfold answeredIds
          rw [List.filterMap_append]
          rfl
    · rw [if_neg hname] at h
      rw [if_neg hname]
      cases h
      simp
end HIL

namespace HIL

open Week6

/-- C6 witness: the per-call dispatch applied to a two-calculator-call
`agent.py` state and the two-search-call approval state. -/
theorem C6_per_call_dispatch_witness :
    answeredIds (WSAgent.collect_results WSAgent.pyEval4 "now"
        (lastMsg WSAgent.wsTwoCallState.messages).toolCalls) =
      ((lastMsg WSAgent.wsTwoCallState.messages).toolCalls).map ToolCall.id :=
  (C6_per_call_dispatch WSAgent.pyEval4 "now" WSAgent.wsTwoCallState
    autoOkState
    { name := "search_database", args := .search "q1", id := "c1" }
    [{ name := "search_database", args := .search "q2", id := "c2" }]
    rfl).2.1

/-- C7 counterexample: the approved high-risk request whose handler
invocation raises aborts the whole `invoke` with the uncaught exception —
no `ToolResult` carrying the error text, no audit entry of any kind, no
continuation of the loop. -/
theorem C7_counterexample :
    badArgsRun = .error "ValidationError: delete_records" :=
  rfl

/-- C7 (amended: only `agent.py`'s `tool_node` catches handler errors,
and even there no audit entry is written because `agent.py` keeps no
audit log; in `human_in_loop.py` the error propagates and aborts the
Executor): a raising handler inside `tool_node` becomes a `ToolResult`
message carrying the error text and the graph steps on to the Reasoner,
while the same situation inside `execute_approved_action` aborts the
superstep with the exception. -/
theorem C7_error_boundary (pyEval : String → Except String String)
    (now : String) (tc : ToolCall) (e1 : String)
    (f : ToolArgsKind → Except String String)
    (hf : WSAgent.tool_map pyEval now tc.name = some f)
    (hr : f tc.args = .error e1)
    (reasoner : List Msg → AIMsg) (inputs : Nat → String) (k : Nat)
    (s2 : AgentState) (p : PendingAction) (e2 : String)
    (g : ToolArgsKind → Except String String)
    (hp : s2.pending_action = some p)
    (hg : tool_map p.tool_name = some g)
    (hge : g p.tool_args = .error e2) :
    WSAgent.dispatch_call pyEval now tc =
      Msg.toolMsg ("Error executing " ++ tc.name ++ ": " ++ e1)
        tc.id (some tc.name) ∧
    (∀ ws : WSAgent.Cfg, ws.node = WSAgent.Node.tools →
      (WSAgent.stepA reasoner pyEval now ws).node = WSAgent.Node.agent) ∧
    execute_approved_action s2 = .error e2 ∧
    stepNode reasoner inputs ⟨s2, .execute, k⟩ = .error e2 := by
  have hx : execute_approved_action s2 = .error e2 := by
    unfold execute_approved_action
    rw [hp]
    dsimp only
    rw [hg]
    dsimp only
    rw [hge]
  refine ⟨?_, ?_, hx, ?_⟩
  · unfold WSAgent.dispatch_call
    rw [hf]
    dsimp only
    rw [hr]
  · intro ws hws
    rcases ws with ⟨wss, wsnode⟩
    cases wsnode with
    | agent => exact absurd hws (by simp)
    | tools => rfl
    | END => exact absurd hws (by simp)
  · simp only [stepNode]
    rw [hx]

/-- C7 witness: a calculator call with ill-typed arguments is answered
with an error `ToolResult` in `agent.py`, while the approved ill-typed
`delete_records` action aborts the approval engine. -/
theorem C7_error_boundary_witness :
    WSAgent.dispatch_call WSAgent.pyEval4 "now"
        { name := "calculator", args := .noArgs, id := "c9" } =
      Msg.toolMsg ("Error executing " ++ "calculator" ++ ": " ++
        "ValidationError: calculator") "c9" (some "calculator") ∧
    (∀ ws : WSAgent.Cfg, ws.node = WSAgent.Node.tools →
      (WSAgent.stepA sbReasoner WSAgent.pyEval4 "now" ws).node =
        WSAgent.Node.agent) ∧
    execute_approved_action badArgsPendingState =
      .error "ValidationError: delete_records" ∧
    stepNode sbReasoner (fun _ => "yes") ⟨badArgsPendingState, .execute, 1⟩ =
      .error "ValidationError: delete_records" :=
  C7_error_boundary WSAgent.pyEval4 "now"
    { name := "calculator", args := .noArgs, id := "c9" }
    "ValidationError: calculator" (WSAgent.calculator WSAgent.pyEval4)
    rfl rfl sbReasoner (fun _ => "yes") 1 badArgsPendingState
    { tool_name := "delete_records", tool_args := .search "oops",
      tool_call_id := "c1", risk_level := "high" }
    "ValidationError: delete_records" delete_records rfl rfl rfl

end HIL
